/-
Verification of the DisparaAI campaign workflow orchestrator.

Shallow embedding of the components the claims are about:
  * the bulk dispatch loop of CampaignService.execute_bulk_campaign
    (disparaai/services/campaign_service.py),
  * the execution-status handler of BulkMessagingWorkflow
    (disparaai/workflows/bulk_messaging_workflow.py),
  * the post-CSV text routing of PostCSVOptionsStep
    (disparaai/workflows/steps/post_csv_options_step.py),
  * the contact extraction and deduplication of Base64FileHandler
    (disparaai/utils/base64_file_handler.py),
  * the phone cleaning / Brazilian legacy repair of PhoneValidator
    (disparaai/utils/phone_validator.py),
  * the background copy generation service
    (disparaai/services/background_copy_service.py) together with
    CopyGenerationStep (disparaai/workflows/steps/copy_generation_step.py).

Python strings are modelled by Lean `String` (a list of characters); `str.lower`
is modelled ASCII-only (every keyword constant in the source is already lower
case), `str.strip` by dropping whitespace on both ends, and the membership test
`needle in hay` by substring containment.
-/
import Mathlib

namespace DisparaAI

/-! ## String utilities modelling the Python primitives used by the source -/

/-- Boolean prefix test on character lists. -/
def listStartsWith : List Char → List Char → Bool
| [], _ => true
| _ :: _, [] => false
| a :: as, b :: bs => a == b && listStartsWith as bs

/-- Boolean substring containment on character lists, Python `needle in hay`
semantics (the empty needle is contained in everything). -/
def listContains : List Char → List Char → Bool
| [], needle => needle.isEmpty
| c :: t, needle => listStartsWith needle (c :: t) || listContains t needle

/-- Python `needle in hay` on strings. -/
def strContains (hay needle : String) : Bool :=
  listContains hay.data needle.data

/-- Python `str.lower` (ASCII; all keyword constants in the source are already
lower case). -/
def pyLower (s : String) : String :=
  ⟨s.data.map Char.toLower⟩

/-- Strip whitespace from both ends of a character list (Python `str.strip`). -/
def pyStripChars (l : List Char) : List Char :=
  ((l.dropWhile Char.isWhitespace).reverse.dropWhile Char.isWhitespace).reverse

/-- Python `str.strip`. -/
def pyStrip (s : String) : String :=
  ⟨pyStripChars s.data⟩

/-- Python `str.split(sep)` on a single character separator: always returns at
least one (possibly empty) part. -/
def splitOnChar (sep : Char) : List Char → List (List Char)
| [] => [[]]
| c :: cs =>
  if c = sep then [] :: splitOnChar sep cs
  else
    match splitOnChar sep cs with
    | [] => [[c]]
    | h :: t => (c :: h) :: t

/-- Python `str.split(sep, 1)`: split at the first occurrence of `sep`,
returning `none` when `sep` does not occur. -/
def splitFirst (sep : Char) : List Char → Option (List Char × List Char)
| [] => none
| c :: cs =>
  if c = sep then some ([], cs)
  else
    match splitFirst sep cs with
    | some (a, b) => some (c :: a, b)
    | none => none

/-! ## Data model (spec §3; field set as used by the sources) -/

/-- A phone record produced by normalization (fields as constructed throughout
src and described in spec §3). -/
structure PhoneRecord where
  raw : String
  formatted : String
  country_code : Option String := none
  is_valid : Bool
  error_message : Option String := none
deriving Repr, DecidableEq

/-- The progress counters initialised by CampaignService.execute_bulk_campaign
as `progress = {"sent": 0, "delivered": 0, "failed": 0}`. -/
structure Progress where
  sent : Nat
  delivered : Nat
  failed : Nat
deriving Repr, DecidableEq

/-- The statistics entries of `campaign_data["stats"]` that the handlers read. -/
structure CampaignStats where
  valid_numbers : Nat
deriving Repr, DecidableEq

/-- The `campaign_data` bag of a session, restricted to the keys the embedded
operations read or write.  A `none` / empty value models an absent key. -/
structure CampaignData where
  phone_numbers : List PhoneRecord := []
  stats : Option CampaignStats := none
  progress : Option Progress := none
  image_file_info : Bool := false
  text_context : Option String := none
  context_type : Option String := none
  copy_options : List String := []
  copy_styles : List String := []
  selected_copy : Option String := none
deriving Repr, DecidableEq

/-- A user session as kept by SessionService (disparaai/services/session_service.py). -/
structure Session where
  user_phone : String
  workflow_step : String
  campaign_data : CampaignData
deriving Repr, DecidableEq

/-- Source `stats.get("valid_numbers", 0)`. -/
def Session.validNumbers (s : Session) : Nat :=
  (s.campaign_data.stats.map CampaignStats.valid_numbers).getD 0

/-- Source `progress.get("sent", 0)` (0 when the `progress` key does not exist yet). -/
def Session.progressSent (s : Session) : Nat :=
  (s.campaign_data.progress.map Progress.sent).getD 0

/-! ## Campaign dispatcher (CampaignService.execute_bulk_campaign) -/

/-- One iteration of the per-recipient `try/except` body of
`execute_bulk_campaign`: when the gateway send succeeds, `sent` and `delivered`
are both incremented; when it raises, the `except` branch increments `failed`
only. -/
def dispatchStep (p : Progress) (sendOk : Bool) : Progress :=
  if sendOk then { p with sent := p.sent + 1, delivered := p.delivered + 1 }
  else { p with failed := p.failed + 1 }

/-- The dispatch loop `for i, phone in enumerate(phone_numbers)` of
`execute_bulk_campaign`: `sendOk r` tells whether the gateway call for
recipient `r` succeeds.  Returns the final progress and, as an observation
trace, the list of recipients whose loop body was entered (attempted). -/
def dispatchLoop (sendOk : PhoneRecord → Bool) : List PhoneRecord → Progress → Progress × List PhoneRecord
| [], p => (p, [])
| r :: rs, p =>
  let rest := dispatchLoop sendOk rs (dispatchStep p (sendOk r))
  (rest.1, r :: rest.2)

/-- Source `execute_bulk_campaign`: recipients are the valid phone records
(`[p for p in campaign_data["phone_numbers"] if p.is_valid]`), progress starts
at zero. -/
def execute_bulk_campaign (phones : List PhoneRecord) (sendOk : PhoneRecord → Bool) :
    Progress × List PhoneRecord :=
  dispatchLoop sendOk (phones.filter (fun p => p.is_valid)) ⟨0, 0, 0⟩

/-- The progress counters observable after the first `k` recipients have been
processed (an observation point inside the dispatch loop). -/
def progressAfter (phones : List PhoneRecord) (sendOk : PhoneRecord → Bool) (k : Nat) : Progress :=
  (dispatchLoop sendOk ((phones.filter (fun p => p.is_valid)).take k) ⟨0, 0, 0⟩).1

/-- Source `execute_bulk_campaign` at the session level: it only writes the `progress`
entry of `campaign_data`; in particular it never touches `workflow_step` (no
completion event is pushed). -/
def execute_bulk_campaign_session (s : Session) (sendOk : PhoneRecord → Bool) : Session :=
  { s with campaign_data :=
      { s.campaign_data with
          progress := some (execute_bulk_campaign s.campaign_data.phone_numbers sendOk).1 } }

/-! ## Execution-status handler (BulkMessagingWorkflow._handle_execution_status) -/

/-- The three responses `_handle_execution_status` can produce: the status
report (with the completion flag it prints), the completed case in which the
workflow is reset and the message is handled by the welcome step, and the
in-progress message. -/
inductive ExecStatusResponse
| statusReport (total sent delivered failed : Nat) (completed : Bool)
| welcomeStep
| inProgress
deriving Repr, DecidableEq

/-- Source `SessionService.reset_workflow`: step back to `welcome`, campaign data
cleared. -/
def reset_workflow (s : Session) : Session :=
  { s with workflow_step := "welcome", campaign_data := {} }

/-- Source `BulkMessagingWorkflow._handle_execution_status`: completion is
`progress.get("sent", 0) >= stats.get("valid_numbers", 0)`; a message
containing `status` gets the report; otherwise, when completed, the workflow is
reset and the message handled as a welcome-step message; otherwise the
in-progress message is returned with the session untouched. -/
def handle_execution_status (text0 : String) (s : Session) : ExecStatusResponse × Session :=
  let text := pyStrip (pyLower text0)
  let sent := s.progressSent
  let valid := s.validNumbers
  let is_completed : Bool := valid ≤ sent
  if strContains text "status" then
    (.statusReport valid sent
      ((s.campaign_data.progress.map Progress.delivered).getD 0)
      ((s.campaign_data.progress.map Progress.failed).getD 0) is_completed, s)
  else if is_completed then
    (.welcomeStep, reset_workflow s)
  else
    (.inProgress, s)

/-! ## Post-CSV text routing (PostCSVOptionsStep.handle, text messages) -/

/-- Source `PostCSVOptionsStep._is_custom_message_intent` keyword list. -/
def custom_keywords : List String :=
  ["personalizada", "minha mensagem", "escrever", "personalizar", "customizar"]

/-- Source `PostCSVOptionsStep._is_direct_send_intent` keyword list. -/
def direct_keywords : List String :=
  ["enviar direto", "direto", "imediato", "sem personalização", "envio direto"]

/-- Source `PostCSVOptionsStep._is_ai_copy_intent` keyword list. -/
def ai_keywords : List String :=
  ["gerar copy", "gerar", "ai", "inteligência artificial", "criar copy", "automático"]

/-- The reserved status commands of the context-fallback guard and of the
status branch. -/
def status_commands : List String :=
  ["status", "progress", "stats"]

/-- Source `_is_custom_message_intent`: any keyword contained in the text. -/
def is_custom_message_intent (text : String) : Bool :=
  custom_keywords.any (fun k => strContains text k)

/-- Source `_is_direct_send_intent`. -/
def is_direct_send_intent (text : String) : Bool :=
  direct_keywords.any (fun k => strContains text k)

/-- Source `_is_ai_copy_intent`. -/
def is_ai_copy_intent (text : String) : Bool :=
  ai_keywords.any (fun k => strContains text k)

/-- Source `any(cmd in text for cmd in ["status", "progress", "stats"])`. -/
def has_status_command (text : String) : Bool :=
  status_commands.any (fun k => strContains text k)

/-- Source `PostCSVOptionsStep._extract_context_from_command`: when the (already
lowered) text contains `gerar copy:`, split at the first colon and return the
stripped remainder when it is longer than 5 characters. -/
def extract_context_from_command (text : String) : Option String :=
  if strContains text "gerar copy:" then
    match splitFirst ':' text.data with
    | some (_, rest) =>
      let context := pyStripChars rest
      if 5 < context.length then some ⟨context⟩ else none
    | none => none
  else none

/-- Source `PostCSVOptionsStep._has_context_for_ai_copy`: an image or a stored text
context exists in `campaign_data`. -/
def has_context_for_ai_copy (s : Session) : Bool :=
  s.campaign_data.image_file_info || s.campaign_data.text_context.isSome

/-- The routes a text message can take through `PostCSVOptionsStep.handle`
(each constructor is one `return` site of the source). -/
inductive PostCsvRoute
| customMessage
| directSend
| aiInlineContext (context : String)
| aiWithExistingContext
| aiContextRequest
| textContextFallback
| skipMessage
| statusReport
| optionsMenu
deriving Repr, DecidableEq

/-- Source `PostCSVOptionsStep.handle` for a text message (the image branch is guarded
by `message.message_type == "image"` and unreachable for text): the `if/elif`
chain of the source, returning the route taken and the updated session. -/
def post_csv_handle_text (text0 : String) (s : Session) : PostCsvRoute × Session :=
  let text := pyStrip (pyLower text0)
  if is_custom_message_intent text then
    (.customMessage, { s with workflow_step := "custom_message" })
  else if is_direct_send_intent text then
    (.directSend, { s with workflow_step := "direct_send" })
  else if is_ai_copy_intent text then
    match extract_context_from_command text with
    | some context =>
      (.aiInlineContext context,
        { s with workflow_step := "generating_copy",
                 campaign_data := { s.campaign_data with
                    text_context := some context, context_type := some "text" } })
    | none =>
      if has_context_for_ai_copy s then
        (.aiWithExistingContext, { s with workflow_step := "generating_copy" })
      else
        (.aiContextRequest, s)
  else if !text.data.isEmpty && 10 < (pyStrip text).data.length && !has_status_command text then
    (.textContextFallback,
      { s with workflow_step := "generating_copy",
               campaign_data := { s.campaign_data with
                  text_context := some text, context_type := some "text" } })
  else if strContains text "pular" then
    (.skipMessage, s)
  else if has_status_command text then
    (.statusReport, s)
  else
    (.optionsMenu, s)

/-- The routing categories named by the spec: the three keyword intents, the
free-text context fallback, the skip branch, the status query and the default
options menu. -/
inductive RouteCategory
| customMessage
| directSend
| aiGeneration
| contextFallback
| skipMessage
| statusReport
| optionsMenu
deriving Repr, DecidableEq

/-- Collapse the concrete routes into the spec's categories (the three AI
sub-cases — inline context, existing context, context request — are all the AI
generation intent). -/
def routeCategory : PostCsvRoute → RouteCategory
| .customMessage => .customMessage
| .directSend => .directSend
| .aiInlineContext _ => .aiGeneration
| .aiWithExistingContext => .aiGeneration
| .aiContextRequest => .aiGeneration
| .textContextFallback => .contextFallback
| .skipMessage => .skipMessage
| .statusReport => .statusReport
| .optionsMenu => .optionsMenu

/-- First-match routing over an ordered priority list of predicates, with a
default category when nothing matches. -/
def firstMatch (dflt : RouteCategory) (t : String) :
    List ((String → Bool) × RouteCategory) → RouteCategory
| [] => dflt
| (p, c) :: rest => if p t then c else firstMatch dflt t rest

/-- The context-fallback guard as a predicate on the normalized text. -/
def context_fallback_guard (t : String) : Bool :=
  !t.data.isEmpty && 10 < (pyStrip t).data.length && !has_status_command t

/-- The routing order exactly as claim C6 states it: custom → direct → AI →
context fallback → status query, first match wins, options menu otherwise. -/
def claimRouteOrder : List ((String → Bool) × RouteCategory) :=
  [(is_custom_message_intent, .customMessage),
   (is_direct_send_intent, .directSend),
   (is_ai_copy_intent, .aiGeneration),
   (context_fallback_guard, .contextFallback),
   (has_status_command, .statusReport)]

/-- The six-way first-match classifier claim C6 describes. -/
def claimRoute (text0 : String) : RouteCategory :=
  firstMatch .optionsMenu (pyStrip (pyLower text0)) claimRouteOrder

/-- The claimed order amended with the skip (`pular`) branch the source places
between the context fallback and the status query. -/
def amendedRouteOrder : List ((String → Bool) × RouteCategory) :=
  [(is_custom_message_intent, .customMessage),
   (is_direct_send_intent, .directSend),
   (is_ai_copy_intent, .aiGeneration),
   (context_fallback_guard, .contextFallback),
   (fun t => strContains t "pular", .skipMessage),
   (has_status_command, .statusReport)]

/-- The seven-way first-match classifier of the amended claim C6. -/
def amendedRoute (text0 : String) : RouteCategory :=
  firstMatch .optionsMenu (pyStrip (pyLower text0)) amendedRouteOrder

/-! ## Contact extraction and deduplication (Base64FileHandler) -/

/-- Order-preserving deduplication, the behaviour of
`list(dict.fromkeys(raw_phones))`: keep the first occurrence of every value,
in first-seen order.  `seen` is the set of keys already inserted. -/
def dedupFirstSeenAux (seen : List String) : List String → List String
| [] => []
| x :: xs =>
  if seen.contains x then dedupFirstSeenAux seen xs
  else x :: dedupFirstSeenAux (x :: seen) xs

/-- Source `list(dict.fromkeys(l))`. -/
def dedupFirstSeen (l : List String) : List String :=
  dedupFirstSeenAux [] l

/-- The raw phone collection of `extract_phone_numbers_from_csv`: for every
matched column, stringified non-null cells are stripped and empty values
discarded, the columns concatenated in order. -/
def collect_raw_phones (columns : List (List String)) : List String :=
  (columns.map (fun col => (col.map pyStrip).filter (fun v => !v.isEmpty))).flatten

/-- Source `Base64FileHandler.extract_phone_numbers_from_csv`, success path, starting
from the cell values of the matched phone column(s) (the Polars frame itself is
external): collect, strip, discard empties, deduplicate preserving first-seen
order, and wrap each unique raw value into a not-yet-validated PhoneRecord. -/
def extract_phone_numbers_from_csv (columns : List (List String)) : List PhoneRecord :=
  (dedupFirstSeen (collect_raw_phones columns)).map
    (fun phone => { raw := phone, formatted := phone, is_valid := false })

/-- One line of `Base64FileHandler._fallback_phone_extraction`'s loop body:
skip blank lines, replace `;` by `,`, split on `,`, and when the stripped first
field is non-empty emit a record with the quotes removed. -/
def fallback_line_record (line : List Char) : Option PhoneRecord :=
  if (pyStripChars line).isEmpty then none
  else
    match splitOnChar ',' (line.map (fun c => if c = ';' then ',' else c)) with
    | [] => none
    | p0 :: _ =>
      if (pyStripChars p0).isEmpty then none
      else
        let phone : String := ⟨(pyStripChars p0).filter (fun c => c ≠ '"')⟩
        some { raw := phone, formatted := phone, is_valid := false }

/-- Source `Base64FileHandler._fallback_phone_extraction` on the decoded text: strip
the content, split into lines, skip the header line, and collect one record per
remaining line with a non-empty first field.  No deduplication is performed on
this path. -/
def fallback_phone_extraction (text_content : String) : List PhoneRecord :=
  ((splitOnChar '\n' (pyStrip text_content).data).drop 1).filterMap fallback_line_record

/-! ## Phone validation (PhoneValidator, default region BR) -/

/-- The decimal digit characters. -/
def digits09 : List Char :=
  ['0', '1', '2', '3', '4', '5', '6', '7', '8', '9']

/-- Source `PhoneValidator._fix_brazilian_legacy_mobile`'s `mobile_area_codes` list,
verbatim from the source. -/
def mobile_area_codes : List String :=
  ["11", "12", "13", "14", "15", "16", "17", "18", "19",
   "21", "22", "24", "27", "28",
   "31", "32", "33", "34", "35", "37", "38",
   "41", "42", "43", "44", "45", "46", "47", "48", "49",
   "51", "53", "54", "55",
   "61", "62", "64", "63", "65", "66", "67", "68", "69",
   "71", "73", "74", "75", "77", "79",
   "81", "87", "82", "83", "84", "85", "88", "86", "89",
   "91", "93", "94", "92", "97", "95", "96", "98", "99"]

/-- The separator characters removed by `_clean_phone_number`
(`" "`, `"-"`, `"("`, `")"`, `"."`, `"/"`). -/
def clean_separators : List Char :=
  [' ', '-', '(', ')', '.', '/']

/-- Source `PhoneValidator._clean_phone_number`: strip, remove separators, then the
Brazilian shaping branches (13-digit `55…` gains `+`; 11 digits starting `1`
gain `+55`; 10 digits not starting `0` gain `+55` and the ninth mobile digit
`9` after the area code; otherwise a bare number longer than 10 characters
gains `+`). -/
def clean_phone_number (phone : String) : String :=
  if phone.data.isEmpty then "" else
  let cleaned := (pyStripChars phone.data).filter (fun c => !clean_separators.contains c)
  if listStartsWith ['5', '5'] cleaned && cleaned.length = 13 then ⟨ '+' :: cleaned⟩
  else if cleaned.length = 11 && listStartsWith ['1'] cleaned then ⟨ '+' :: '5' :: '5' :: cleaned⟩
  else if cleaned.length = 10 && !listStartsWith ['0'] cleaned then
    ⟨ '+' :: '5' :: '5' :: (cleaned.take 2 ++ '9' :: cleaned.drop 2)⟩
  else if !listStartsWith ['+'] cleaned && 10 < cleaned.length then ⟨ '+' :: cleaned⟩
  else ⟨cleaned⟩

/-- Source `PhoneValidator._fix_brazilian_legacy_mobile`: on a 12-digit number with
country code 55, an area code in the mobile set and an 8-digit local number not
already starting with 9, insert the ninth digit `9`; otherwise return the input
unchanged. -/
def fix_brazilian_legacy_mobile (phone : String) : String :=
  if phone.data.isEmpty then phone else
  let clean := phone.data.filter (fun c => !(['+', '-', ' '].contains c))
  if listStartsWith ['5', '5'] clean && clean.length = 12 then
    let area : String := ⟨(clean.drop 2).take 2⟩
    let number := clean.drop 4
    if mobile_area_codes.contains area && number.length = 8 && !listStartsWith ['9'] number then
      ⟨ '+' :: '5' :: '5' :: (area.data ++ '9' :: number)⟩
    else phone
  else phone

/-- Modelled from the spec: the strict numbering-plan validation of the
external `phonenumbers` library (absent from the repository), restricted to
the Brazilian plan the claims exercise (spec §4.2 "Validate against the
standard numbering-plan rules for the configured default region").  A string is
strictly valid when it is `+55`, a two-digit area code of the known set, and
either a nine-digit mobile number starting with 9 or an eight-digit fixed line
starting with 2–5. -/
def phonenumbers_is_valid_br (s : String) : Bool :=
  match s.data with
  | '+' :: '5' :: '5' :: rest =>
    let area : String := ⟨rest.take 2⟩
    let num := rest.drop 2
    mobile_area_codes.contains area && num.all (fun c => digits09.contains c) &&
      ((num.length = 9 && listStartsWith ['9'] num) ||
       (num.length = 8 &&
         (match num with
          | c :: _ => '2' ≤ c && c ≤ '5'
          | [] => false)))
  | _ => false

/-- Modelled from the spec: the `is_possible_number` laxity tier of the
external `phonenumbers` library for Brazil (spec §4.2 "accept possible but not
strictly valid numbers as valid"): a `+55` number whose national part is 8 to
11 digits. -/
def phonenumbers_is_possible_br (s : String) : Bool :=
  match s.data with
  | '+' :: '5' :: '5' :: rest =>
    rest.all (fun c => digits09.contains c) && 8 ≤ rest.length && rest.length ≤ 11
  | _ => false

/-- A valid record as built by `validate_phone_number` on success: formatted to
E.164 (the cleaned `+55…` string is already in E.164 form) with region BR. -/
def mkValidRecord (raw formatted : String) : PhoneRecord :=
  { raw := raw, formatted := formatted, country_code := some "BR", is_valid := true }

/-- An invalid record as built by `validate_phone_number`. -/
def mkInvalidRecord (raw formatted : String) : PhoneRecord :=
  { raw := raw, formatted := formatted, is_valid := false,
    error_message := some "Invalid phone number format" }

/-- Source `PhoneValidator.validate_phone_number` with the instance default region
`BR` (a legacy-tolerant region: `whatsapp_compatible` and `auto_fix_legacy`
both true): clean, parse and check strict validity; when invalid, attempt the
Brazilian legacy repair and re-check; when still invalid, accept numbers the
possibility tier admits (applied to the re-parsed number when a repair was
attempted, per the source's reuse of `parsed_number`). -/
def validate_phone_number (phone : String) : PhoneRecord :=
  let cleaned := clean_phone_number phone
  if phonenumbers_is_valid_br cleaned then
    mkValidRecord phone cleaned
  else
    let fixed := fix_brazilian_legacy_mobile cleaned
    if fixed ≠ cleaned then
      if phonenumbers_is_valid_br fixed then mkValidRecord phone fixed
      else if phonenumbers_is_possible_br fixed then mkValidRecord phone fixed
      else mkInvalidRecord phone cleaned
    else if phonenumbers_is_possible_br cleaned then mkValidRecord phone cleaned
    else mkInvalidRecord phone cleaned

/-! ## Background copy generation (BackgroundCopyService, CopyGenerationStep) -/

/-- Modelled from the spec: `CopyGenerationRequest` (the `disparaai/models`
package is absent from the sources; spec §3 "GenerationRequest — ephemeral
value object built at background-task start: userId, contextType
(image|text|existing), imageContext/textContext, a request id"). -/
structure CopyGenerationRequest where
  user_phone : String
  context_type : String
  image_context : Bool
  text_context : Option String
deriving Repr, DecidableEq

/-- Modelled from the spec: `CopyGenerationRequest.from_session` — the context
type is `image` when an image context exists, `text` when a text context
exists, and `existing` otherwise (spec §3, §4.3). -/
def CopyGenerationRequest.from_session (user_phone : String) (s : Session) : CopyGenerationRequest :=
  { user_phone := user_phone,
    context_type :=
      if s.campaign_data.image_file_info then "image"
      else if s.campaign_data.text_context.isSome then "text"
      else "existing",
    image_context := s.campaign_data.image_file_info,
    text_context := s.campaign_data.text_context }

/-- Modelled from the spec: `CopyGenerationRequest.has_valid_context` —
"re-validate that context exists (image or text)" (spec §4.3). -/
def CopyGenerationRequest.has_valid_context (r : CopyGenerationRequest) : Bool :=
  r.image_context || r.text_context.isSome

/-- The texts `CopyGenerationStep.handle` can return: the formatted options on
success, the context-required error text, and the except-branch fallback text
(`Erro na geração — Digite "personalizada" para continuar`). -/
inductive CopyGenResult
| options
| contextError
| generationError
deriving Repr, DecidableEq

/-- Source `CopyGenerationStep.handle`: without image or text context in
`campaign_data` it returns the context error; otherwise, when the generation
agents succeed, it stores the generated options and styles in the session,
advances `workflow_step` to `copy_selection` and returns the formatted
response; when a generation agent raises, the exception is caught inside the
step and the fallback retry text is returned with the session untouched.
`gen_ok` tells whether the agent calls succeed; `styles`/`messages` are the
options the external agent produces. -/
def copy_generation_step_handle (gen_ok : Bool) (styles messages : List String)
    (s : Session) : CopyGenResult × Session :=
  if !(s.campaign_data.image_file_info || s.campaign_data.text_context.isSome) then
    (.contextError, s)
  else if gen_ok then
    (.options,
      { s with workflow_step := "copy_selection",
               campaign_data := { s.campaign_data with
                  copy_options := messages, copy_styles := styles } })
  else
    (.generationError, s)

/-- The outbound messages `_generate_and_deliver_copy` can send through the
messaging gateway: the immediate confirmation, the delivery of the step's
return value, and the except-branch error/retry message. -/
inductive BgMsg
| confirmation
| result (r : CopyGenResult)
| errorRetry
deriving Repr, DecidableEq

/-- The environment of one `_generate_and_deliver_copy` run: which external
calls succeed, the `workflow_step` read back from the fresh session, and the
options the generation agent would produce. -/
structure BgEnv where
  confirmation_send_ok : Bool
  fresh_step : String
  generation_ok : Bool
  result_send_ok : Bool
  error_send_ok : Bool
  gen_styles : List String := []
  gen_messages : List String := []
deriving Repr, DecidableEq

/-- The observable outcome of one `_generate_and_deliver_copy` run. -/
structure BgOutcome where
  session : Session
  messages : List BgMsg
  active_cleared : Bool
deriving Repr, DecidableEq

/-- The `except` block of `_generate_and_deliver_copy`: try to send the error
message and roll `workflow_step` back to `csv_processed`; when even that send
raises, the inner `except` swallows it and the rollback is skipped.  The
`finally` clears the active marker either way. -/
def bg_except_path (env : BgEnv) (s : Session) (msgs : List BgMsg) : BgOutcome :=
  if env.error_send_ok then
    { session := { s with workflow_step := "csv_processed" },
      messages := msgs ++ [.errorRetry], active_cleared := true }
  else
    { session := s, messages := msgs, active_cleared := true }

/-- Source `BackgroundCopyService._generate_and_deliver_copy`: send the confirmation,
re-read the session and abandon when the step moved away from
`generating_copy`, raise when no valid context exists, run the generation
step, and deliver its return value; any exception of the `try` block takes the
`except` path. -/
def generate_and_deliver_copy (env : BgEnv) (s : Session) : BgOutcome :=
  let req := CopyGenerationRequest.from_session s.user_phone s
  if !env.confirmation_send_ok then
    bg_except_path env s []
  else if env.fresh_step ≠ "generating_copy" then
    { session := s, messages := [.confirmation], active_cleared := true }
  else if !req.has_valid_context then
    bg_except_path env s [.confirmation]
  else
    let step_result := copy_generation_step_handle env.generation_ok env.gen_styles env.gen_messages s
    if env.result_send_ok then
      { session := step_result.2, messages := [.confirmation, .result step_result.1],
        active_cleared := true }
    else
      bg_except_path env step_result.2 [.confirmation]

/-- The state of `BackgroundCopyService` that `trigger` touches: the set of
users with an active generation. -/
structure BackgroundCopyService where
  active_generations : List String
deriving Repr, DecidableEq

/-- Source `BackgroundCopyService.trigger_background_copy_generation`: when the user
is already marked active, log and return — service state and session
untouched, and no generation pipeline (hence no acknowledgment, which is sent
by the pipeline itself) is started.  Otherwise mark active and start the
pipeline task.  The second component reports whether a pipeline task was
started. -/
def trigger_background_copy_generation (svc : BackgroundCopyService)
    (user_phone : String) (session : Session) :
    BackgroundCopyService × Bool × Session :=
  if user_phone ∈ svc.active_generations then
    (svc, false, session)
  else
    ({ active_generations := user_phone :: svc.active_generations }, true, session)

/-! ## Interleaving model of a background generation run (claim C9)

One background pipeline for a fixed user, interleaved with arbitrary writes to
that user's `workflow_step` by the rest of the single-process system.  The
pipeline's suspension points follow the awaits of
`_generate_and_deliver_copy` under asyncio's run-to-completion semantics: the
confirmation send is an await (pc 0 → 1), but from the fresh re-read of the
step through the generation and the results write there is no suspension
point — `CopyGenerationStep.handle` contains no internal await and the agent
calls are synchronous — so check, generation and results write form one
atomic region (pc 1): when the observed step is still `generating_copy` the
region writes the results and advances the step to `copy_selection` in the
same move (pc 2 = finished), otherwise it abandons (pc 3). -/

/-- The shared state: the user's current `workflow_step`, the pipeline's
program counter, whether the results write has happened, and (as a history
observation) the step value the re-read check observed. -/
structure GenWorld where
  step : String
  pc : Nat
  wroteResults : Bool
  checkedStep : Option String
deriving Repr, DecidableEq

/-- One atomic move of the background pipeline: completing the awaited
confirmation send (pc 0), or the uninterruptible check–generate–write region
(pc 1). -/
def genTaskStep (w : GenWorld) : GenWorld :=
  if w.pc = 0 then { w with pc := 1 }
  else if w.pc = 1 then
    (if w.step = "generating_copy" then
      { w with step := "copy_selection", wroteResults := true,
               checkedStep := some w.step, pc := 2 }
     else { w with pc := 3, checkedStep := some w.step })
  else w

/-- An event of the interleaved system: one pipeline move, or a concurrent
write of the user's step by the rest of the system. -/
inductive GenEvt
| task
| userWrite (newStep : String)
deriving Repr, DecidableEq

/-- Run a sequence of interleaved events. -/
def runGen (w : GenWorld) : List GenEvt → GenWorld
| [] => w
| .task :: es => runGen (genTaskStep w) es
| .userWrite st :: es => runGen { w with step := st } es

/-- The initial world of one pipeline run: the triggering turn has just set
the step to `generating_copy`. -/
def genWorld0 : GenWorld :=
  { step := "generating_copy", pc := 0, wroteResults := false, checkedStep := none }

/-! ## Concrete scenario data used by individual claims -/

/-- The three valid recipients of claim C1's scenario. -/
def c1Phones : List PhoneRecord :=
  [{ raw := "+5511911110001", formatted := "+5511911110001", is_valid := true },
   { raw := "+5511911110002", formatted := "+5511911110002", is_valid := true },
   { raw := "+5511911110003", formatted := "+5511911110003", is_valid := true }]

/-- Claim C1's gateway behaviour: the send to the second recipient raises. -/
def c1SendOk (r : PhoneRecord) : Bool :=
  r.raw != "+5511911110002"

/-- A session in `executing_campaign` whose dispatch has sent to both of its
two valid recipients (claim C2's completed scenario). -/
def c2Session : Session :=
  { user_phone := "+5511988880000", workflow_step := "executing_campaign",
    campaign_data := { stats := some { valid_numbers := 2 },
                       progress := some { sent := 2, delivered := 2, failed := 0 } } }

/-- Claim C3's failing environment: every gateway send succeeds, the step is
still `generating_copy` at the re-read, and the generation agent raises inside
`CopyGenerationStep.handle`. -/
def c3Env : BgEnv :=
  { confirmation_send_ok := true, fresh_step := "generating_copy",
    generation_ok := false, result_send_ok := true, error_send_ok := true }

/-- Claim C3's session: a user in `generating_copy` with a stored text
context. -/
def c3Session : Session :=
  { user_phone := "+5511977770000", workflow_step := "generating_copy",
    campaign_data := { text_context := some "promo de limpeza dental",
                       context_type := some "text" } }

/-- A session sitting in `csv_processed` with no stored generation context
(claims C4 and C6). -/
def csvProcessedSession : Session :=
  { user_phone := "+5511966660000", workflow_step := "csv_processed",
    campaign_data := { stats := some { valid_numbers := 3 } } }

/-! ## Dispatcher lemmas -/

theorem dispatchLoop_attempts (f : PhoneRecord → Bool) (l : List PhoneRecord) (p : Progress) :
    (dispatchLoop f l p).2 = l := by
  induction l generalizing p with
  | nil => rfl
  | cons r rs ih => simp [dispatchLoop, ih]

theorem dispatchLoop_sent_add_failed (f : PhoneRecord → Bool) (l : List PhoneRecord) (p : Progress) :
    (dispatchLoop f l p).1.sent + (dispatchLoop f l p).1.failed = p.sent + p.failed + l.length := by
  induction l generalizing p with
  | nil => simp [dispatchLoop]
  | cons r rs ih =>
    have h := ih (dispatchStep p (f r))
    cases hr : f r <;> simp [dispatchLoop, dispatchStep, hr] at h ⊢ <;> omega

theorem dispatchLoop_counters_le (f : PhoneRecord → Bool) (l : List PhoneRecord) (p : Progress) :
    p.sent ≤ (dispatchLoop f l p).1.sent
    ∧ p.delivered ≤ (dispatchLoop f l p).1.delivered
    ∧ p.failed ≤ (dispatchLoop f l p).1.failed := by
  induction l generalizing p with
  | nil => simp [dispatchLoop]
  | cons r rs ih =>
    have h := ih (dispatchStep p (f r))
    cases hr : f r <;> simp [dispatchLoop, dispatchStep, hr] at h ⊢ <;> omega

theorem dispatchLoop_append (f : PhoneRecord → Bool) (l1 l2 : List PhoneRecord) (p : Progress) :
    (dispatchLoop f (l1 ++ l2) p).1 = (dispatchLoop f l2 (dispatchLoop f l1 p).1).1 := by
  induction l1 generalizing p with
  | nil => rfl
  | cons r rs ih => simp [dispatchLoop, ih]

theorem dispatchLoop_delivered_eq_sent (f : PhoneRecord → Bool) (l : List PhoneRecord)
    (p : Progress) (h : p.delivered = p.sent) :
    (dispatchLoop f l p).1.delivered = (dispatchLoop f l p).1.sent := by
  induction l generalizing p with
  | nil => simpa [dispatchLoop]
  | cons r rs ih =>
    simp only [dispatchLoop]
    exact ih (dispatchStep p (f r)) (by cases hr : f r <;> simp [dispatchStep, hr, h])

/-! ## Claim theorems -/

/-- Claim C1: in a bulk dispatch run over the valid phone records, a
gateway-send failure increments only the `failed` counter (first conjunct) and
the loop still attempts every recipient of the valid list whatever the
gateway does (second conjunct); in the concrete 3-recipient scenario whose 2nd
send raises, the final counters are sent 2, delivered 2, failed 1 and the 3rd
recipient is still attempted. -/
theorem execute_bulk_campaign_isolates_failures :
    (∀ p : Progress, dispatchStep p false = { p with failed := p.failed + 1 })
    ∧ (∀ (phones : List PhoneRecord) (sendOk : PhoneRecord → Bool),
        (execute_bulk_campaign phones sendOk).2 = phones.filter (fun r => r.is_valid))
    ∧ (execute_bulk_campaign c1Phones c1SendOk).1 = { sent := 2, delivered := 2, failed := 1 }
    ∧ (execute_bulk_campaign c1Phones c1SendOk).2 = c1Phones
    ∧ { raw := "+5511911110003", formatted := "+5511911110003", is_valid := true : PhoneRecord }
        ∈ (execute_bulk_campaign c1Phones c1SendOk).2 := by
  refine ⟨fun p => by simp [dispatchStep], fun phones sendOk => ?_, by decide, by decide, by decide⟩
  simpa [execute_bulk_campaign] using dispatchLoop_attempts sendOk (phones.filter (fun r => r.is_valid)) ⟨0, 0, 0⟩

/-- Claim C10: at every observation point of a dispatch run (after any number
`k` of processed recipients, hence also after the full run), the `delivered`
counter equals the `sent` counter: both are incremented together on success
and nothing else updates them. -/
theorem dispatch_delivered_equals_sent (phones : List PhoneRecord)
    (sendOk : PhoneRecord → Bool) (k : Nat) :
    (progressAfter phones sendOk k).delivered = (progressAfter phones sendOk k).sent
    ∧ (execute_bulk_campaign phones sendOk).1.delivered
        = (execute_bulk_campaign phones sendOk).1.sent := by
  constructor
  · exact dispatchLoop_delivered_eq_sent sendOk _ ⟨0, 0, 0⟩ rfl
  · exact dispatchLoop_delivered_eq_sent sendOk _ ⟨0, 0, 0⟩ rfl

/-- Claim C5: during a single dispatch run the three progress counters are
monotonically non-decreasing along the run (observation point `j` before
observation point `k`), `sent + failed` never exceeds the number of valid
recipients, and after the loop has visited all recipients `sent + failed`
equals that number exactly. -/
theorem dispatch_progress_invariants (phones : List PhoneRecord)
    (sendOk : PhoneRecord → Bool) (j k : Nat) (hjk : j ≤ k) :
    ((progressAfter phones sendOk j).sent ≤ (progressAfter phones sendOk k).sent
     ∧ (progressAfter phones sendOk j).delivered ≤ (progressAfter phones sendOk k).delivered
     ∧ (progressAfter phones sendOk j).failed ≤ (progressAfter phones sendOk k).failed)
    ∧ (progressAfter phones sendOk k).sent + (progressAfter phones sendOk k).failed
        ≤ (phones.filter (fun p => p.is_valid)).length
    ∧ (execute_bulk_campaign phones sendOk).1.sent
        + (execute_bulk_campaign phones sendOk).1.failed
        = (phones.filter (fun p => p.is_valid)).length := by
  set l := phones.filter (fun p => p.is_valid) with hl
  constructor
  · have htake : l.take k = l.take j ++ (l.drop j).take (k - j) := by
      rw [← List.take_add]
      congr 1
      omega
    have := dispatchLoop_counters_le sendOk ((l.drop j).take (k - j))
      (dispatchLoop sendOk (l.take j) ⟨0, 0, 0⟩).1
    simp only [progressAfter, ← hl, htake, dispatchLoop_append]
    exact this
  constructor
  · have h := dispatchLoop_sent_add_failed sendOk (l.take k) ⟨0, 0, 0⟩
    simp only [progressAfter, ← hl] at h ⊢
    rw [h]
    simp [List.length_take]
  · have h := dispatchLoop_sent_add_failed sendOk l ⟨0, 0, 0⟩
    simp only [execute_bulk_campaign, ← hl] at h ⊢
    omega

/-- Witness for C5 at a concrete run: observation points 1 ≤ 2 of the C1
scenario. -/
theorem dispatch_progress_invariants_witness :
    (1 ≤ 2)
    ∧ (((progressAfter c1Phones c1SendOk 1).sent ≤ (progressAfter c1Phones c1SendOk 2).sent
       ∧ (progressAfter c1Phones c1SendOk 1).delivered ≤ (progressAfter c1Phones c1SendOk 2).delivered
       ∧ (progressAfter c1Phones c1SendOk 1).failed ≤ (progressAfter c1Phones c1SendOk 2).failed)
      ∧ (progressAfter c1Phones c1SendOk 2).sent + (progressAfter c1Phones c1SendOk 2).failed
          ≤ (c1Phones.filter (fun p => p.is_valid)).length
      ∧ (execute_bulk_campaign c1Phones c1SendOk).1.sent
          + (execute_bulk_campaign c1Phones c1SendOk).1.failed
          = (c1Phones.filter (fun p => p.is_valid)).length) :=
  ⟨by decide, dispatch_progress_invariants c1Phones c1SendOk 1 2 (by decide)⟩

/-- Claim C2: while `currentStep` is `executing_campaign`, completion is
computed by comparing `progress.sent` with `stats.valid_numbers`: once `sent`
equals the valid-recipient count, a non-status message resets the workflow to
`welcome` and is handled as a welcome-step message; while `sent` is below it,
the handler returns the in-progress message with the session unchanged; and
the dispatcher itself never touches `workflow_step` (no explicit done event). -/
theorem execution_status_completion (s : Session) (text : String)
    (sendOk : PhoneRecord → Bool)
    (hns : strContains (pyStrip (pyLower text)) "status" = false) :
    (s.progressSent = s.validNumbers →
      handle_execution_status text s = (.welcomeStep, reset_workflow s))
    ∧ (s.progressSent < s.validNumbers →
      handle_execution_status text s = (.inProgress, s))
    ∧ (execute_bulk_campaign_session s sendOk).workflow_step = s.workflow_step := by
  refine ⟨fun heq => ?_, fun hlt => ?_, rfl⟩
  · simp [handle_execution_status, hns, heq]
  · simp [handle_execution_status, hns, Nat.not_le.mpr hlt]

/-- Witness for C2: a completed two-recipient campaign and the non-status
message `ok`. -/
theorem execution_status_completion_witness :
    strContains (pyStrip (pyLower "ok")) "status" = false
    ∧ c2Session.progressSent = c2Session.validNumbers
    ∧ handle_execution_status "ok" c2Session = (.welcomeStep, reset_workflow c2Session) :=
  ⟨by decide, by decide,
    (execution_status_completion c2Session "ok" (fun _ => true) (by decide)).1 (by decide)⟩

/-- Claim C3 (code bug, evaluated at the failing input): when the generation
agent raises inside `CopyGenerationStep.handle` (environment `c3Env`), the
step's internal `except` swallows the exception and returns the retry text,
the background service delivers that text as if it were a successful result,
and the session's `workflow_step` is left at `generating_copy` — it is never
rolled back to `csv_processed` as the claim (and spec §4.3) require. -/
theorem background_generation_failure_keeps_generating_copy :
    (generate_and_deliver_copy c3Env c3Session).session.workflow_step = "generating_copy"
    ∧ (generate_and_deliver_copy c3Env c3Session).session.workflow_step ≠ "csv_processed"
    ∧ (generate_and_deliver_copy c3Env c3Session).messages
        = [.confirmation, .result .generationError]
    ∧ (generate_and_deliver_copy c3Env c3Session).active_cleared = true := by
  decide

/-- Claim C4: calling `trigger` while a generation is already marked active
for that user is a no-op — service state and session unchanged, no pipeline
task (hence no acknowledgment, which only the pipeline sends) —, and two
triggers in rapid succession for a user not initially active start exactly one
pipeline. -/
theorem trigger_duplicate_noop (svc : BackgroundCopyService) (u : String) (s : Session) :
    (u ∈ svc.active_generations →
      trigger_background_copy_generation svc u s = (svc, false, s))
    ∧ (u ∉ svc.active_generations →
      (trigger_background_copy_generation svc u s).2.1 = true
      ∧ (trigger_background_copy_generation
           (trigger_background_copy_generation svc u s).1 u s).2.1 = false
      ∧ (trigger_background_copy_generation
           (trigger_background_copy_generation svc u s).1 u s).1
          = (trigger_background_copy_generation svc u s).1) := by
  constructor
  · intro hu
    simp [trigger_background_copy_generation, hu]
  · intro hu
    simp [trigger_background_copy_generation, hu]

/-- Witness for C4: a duplicate trigger for an already-active user is the
identity, and a double trigger from the inactive state starts exactly one
pipeline. -/
theorem trigger_duplicate_noop_witness :
    ("+5511966660000" ∈ (BackgroundCopyService.mk ["+5511966660000"]).active_generations
     ∧ trigger_background_copy_generation ⟨["+5511966660000"]⟩ "+5511966660000" csvProcessedSession
        = (⟨["+5511966660000"]⟩, false, csvProcessedSession))
    ∧ ((trigger_background_copy_generation ⟨[]⟩ "+5511966660000" csvProcessedSession).2.1 = true
       ∧ (trigger_background_copy_generation
            (trigger_background_copy_generation ⟨[]⟩ "+5511966660000" csvProcessedSession).1
            "+5511966660000" csvProcessedSession).2.1 = false
       ∧ (trigger_background_copy_generation
            (trigger_background_copy_generation ⟨[]⟩ "+5511966660000" csvProcessedSession).1
            "+5511966660000" csvProcessedSession).1
          = (trigger_background_copy_generation ⟨[]⟩ "+5511966660000" csvProcessedSession).1) :=
  ⟨⟨by decide, (trigger_duplicate_noop ⟨["+5511966660000"]⟩ "+5511966660000" csvProcessedSession).1 (by decide)⟩,
    (trigger_duplicate_noop ⟨[]⟩ "+5511966660000" csvProcessedSession).2 (by decide)⟩

/-- Claim C6 (amended): the text routing of the `csv_processed` step is the
first-match classifier over the fixed order custom message → direct send → AI
generation → free-text context fallback → skip (`pular`) → status query →
options menu; in particular any text matching a custom-message keyword — even
one also containing a direct-send keyword — is routed as custom message. -/
theorem post_csv_routing_priority (text : String) (s : Session) :
    routeCategory (post_csv_handle_text text s).1 = amendedRoute text
    ∧ (is_custom_message_intent (pyStrip (pyLower text)) = true →
        (post_csv_handle_text text s).1 = .customMessage) := by
  constructor
  · simp only [post_csv_handle_text, amendedRoute, amendedRouteOrder, firstMatch,
      context_fallback_guard]
    split_ifs <;>
      first
      | rfl
      | (cases extract_context_from_command (pyStrip (pyLower text)) <;>
          simp [routeCategory])
  · intro h
    simp [post_csv_handle_text, h]

/-- Witness for C6 (amended) at a text containing both a custom-message
keyword and a direct-send keyword: it is routed as custom message. -/
theorem post_csv_routing_priority_witness :
    is_custom_message_intent (pyStrip (pyLower "quero personalizada, enviar direto")) = true
    ∧ routeCategory (post_csv_handle_text "quero personalizada, enviar direto" csvProcessedSession).1
        = amendedRoute "quero personalizada, enviar direto"
    ∧ (post_csv_handle_text "quero personalizada, enviar direto" csvProcessedSession).1
        = .customMessage :=
  ⟨by decide,
    (post_csv_routing_priority "quero personalizada, enviar direto" csvProcessedSession).1,
    (post_csv_routing_priority "quero personalizada, enviar direto" csvProcessedSession).2 (by decide)⟩

/-- Counterexample to C6 as stated: the text `pular` matches none of the six
categories the claim lists, so the claimed order routes it to the options
menu, but the source has a skip branch between the context fallback and the
status query and answers with the skip message instead. -/
theorem post_csv_routing_counterexample :
    routeCategory (post_csv_handle_text "pular" csvProcessedSession).1 = .skipMessage
    ∧ claimRoute "pular" = .optionsMenu
    ∧ routeCategory (post_csv_handle_text "pular" csvProcessedSession).1 ≠ claimRoute "pular" := by
  decide

/-! ## Deduplication lemmas -/

theorem dedupFirstSeenAux_not_mem (l : List String) (seen : List String) (x : String)
    (hx : x ∈ seen) : x ∉ dedupFirstSeenAux seen l := by
  induction l generalizing seen with
  | nil => simp [dedupFirstSeenAux]
  | cons a t ih =>
    by_cases ha : a ∈ seen
    · simpa [dedupFirstSeenAux, ha] using ih seen hx
    · simp only [dedupFirstSeenAux]
      rw [if_neg (by simpa using ha)]
      intro hmem
      rcases List.mem_cons.mp hmem with h | h
      · exact ha (h ▸ hx)
      · exact ih (a :: seen) (List.mem_cons_of_mem _ hx) h

theorem dedupFirstSeenAux_nodup (l : List String) (seen : List String) :
    (dedupFirstSeenAux seen l).Nodup := by
  induction l generalizing seen with
  | nil => simp [dedupFirstSeenAux]
  | cons a t ih =>
    by_cases ha : a ∈ seen
    · simpa [dedupFirstSeenAux, ha] using ih seen
    · simp only [dedupFirstSeenAux]
      rw [if_neg (by simpa using ha)]
      exact List.nodup_cons.mpr
        ⟨dedupFirstSeenAux_not_mem t (a :: seen) a (List.mem_cons_self a seen), ih (a :: seen)⟩

theorem dedupFirstSeenAux_sublist (l : List String) (seen : List String) :
    List.Sublist (dedupFirstSeenAux seen l) l := by
  induction l generalizing seen with
  | nil => simp [dedupFirstSeenAux]
  | cons a t ih =>
    by_cases ha : a ∈ seen
    · simp only [dedupFirstSeenAux]
      rw [if_pos (by simpa using ha)]
      exact (ih seen).cons a
    · simp only [dedupFirstSeenAux]
      rw [if_neg (by simpa using ha)]
      exact (ih (a :: seen)).cons₂ a

/-- Claim C7 (amended): the tabular extraction path produces no two records
with the same `raw` value, and the kept occurrences preserve first-seen order
(the output raws form a sublist of the stripped non-empty collected values);
the naive fallback path, by contrast, does not deduplicate (see the
counterexample). -/
theorem extract_phones_nodup_first_seen (columns : List (List String)) :
    ((extract_phone_numbers_from_csv columns).map PhoneRecord.raw).Nodup
    ∧ List.Sublist ((extract_phone_numbers_from_csv columns).map PhoneRecord.raw)
        (collect_raw_phones columns) := by
  have hmap : (extract_phone_numbers_from_csv columns).map PhoneRecord.raw
      = dedupFirstSeen (collect_raw_phones columns) := by
    simp only [extract_phone_numbers_from_csv, List.map_map]
    exact List.map_id _
  rw [hmap]
  exact ⟨dedupFirstSeenAux_nodup _ _, dedupFirstSeenAux_sublist _ _⟩

/-- Counterexample to C7 as stated: a file whose tabular parse fails and whose
fallback text has the same number on two lines yields two records with the
same `raw` value — the fallback path performs no deduplication. -/
theorem fallback_extraction_duplicates :
    ((fallback_phone_extraction "telefone\n123\n123").map PhoneRecord.raw) = ["123", "123"]
    ∧ ¬ ((fallback_phone_extraction "telefone\n123\n123").map PhoneRecord.raw).Nodup := by
  decide

/-! ## Interleaving lemmas for the background write (claim C9) -/

theorem runGen_invariant (es : List GenEvt) (w : GenWorld)
    (h1 : w.wroteResults = true → w.checkedStep = some "generating_copy")
    (h2 : w.pc ≤ 1 → w.wroteResults = false) :
    (runGen w es).wroteResults = true → (runGen w es).checkedStep = some "generating_copy" := by
  induction es generalizing w with
  | nil => exact h1
  | cons e es ih =>
    cases e with
    | task =>
      have hp1 : (genTaskStep w).wroteResults = true →
          (genTaskStep w).checkedStep = some "generating_copy" := by
        simp only [genTaskStep]
        split_ifs with h0 hA hB
        · exact h1
        · intro _
          simp [hB]
        · intro hw
          rw [h2 (by omega)] at hw
          cases hw
        · exact h1
      have hp2 : (genTaskStep w).pc ≤ 1 → (genTaskStep w).wroteResults = false := by
        simp only [genTaskStep]
        split_ifs with h0 hA hB
        · intro _
          exact h2 (by omega)
        · intro hle
          simp at hle
        · intro hle
          simp at hle
        · intro hle
          exact absurd hle (by omega)
      exact ih (genTaskStep w) hp1 hp2
    | userWrite st => exact ih { w with step := st } h1 h2

theorem runGen_stopped (es : List GenEvt) (w : GenWorld) (h : 2 ≤ w.pc) :
    (runGen w es).wroteResults = w.wroteResults := by
  induction es generalizing w with
  | nil => rfl
  | cons e es ih =>
    cases e with
    | task =>
      have hs : genTaskStep w = w := by
        simp only [genTaskStep]
        split_ifs <;> first | rfl | omega
      simpa [runGen, hs] using ih w h
    | userWrite st => simpa [runGen] using ih { w with step := st } h

/-- Claim C9: the background task re-reads the current step and checks it is
still `generating_copy` before writing its results, abandoning the write
otherwise; and since no suspension point separates that check from the write
(`CopyGenerationStep.handle` contains no internal await and the agent calls
are synchronous), check, generation and write are one atomic region on the
event loop, so results are never written into a session whose `workflow_step`
is not `generating_copy` at the moment of the write: every pipeline move that
performs the write starts from a step equal to `generating_copy`, a
concurrent turn write never sets the results flag, a run that ended with
results written had observed `generating_copy` at its check, and a failed
check abandons the pipeline for good. -/
theorem background_write_only_when_generating (es : List GenEvt) (w : GenWorld) :
    ((genTaskStep w).wroteResults = true →
      w.wroteResults = true ∨ w.step = "generating_copy")
    ∧ (∀ st : String, ({ w with step := st } : GenWorld).wroteResults = w.wroteResults)
    ∧ ((runGen genWorld0 es).wroteResults = true →
        (runGen genWorld0 es).checkedStep = some "generating_copy")
    ∧ (w.pc = 1 → w.step ≠ "generating_copy" →
        (runGen (genTaskStep w) es).wroteResults = w.wroteResults) := by
  refine ⟨?_, fun st => rfl, ?_, ?_⟩
  · simp only [genTaskStep]
    split_ifs with h0 hA hB
    · exact fun hw => Or.inl hw
    · exact fun _ => Or.inr hB
    · exact fun hw => Or.inl hw
    · exact fun hw => Or.inl hw
  · exact runGen_invariant es genWorld0 (by simp [genWorld0]) (by simp [genWorld0])
  · intro hpc hstep
    have hs : genTaskStep w = { w with pc := 3, checkedStep := some w.step } := by
      simp only [genTaskStep]
      split_ifs <;> first | rfl | omega
    rw [hs]
    exact runGen_stopped es _ (by simp)

/-- Witness for C9 at concrete data: the uninterrupted run writes with the
check recorded as `generating_copy`, and a pipeline whose check saw the step
`welcome` abandons and never writes. -/
theorem background_write_only_when_generating_witness :
    ((runGen genWorld0 [.task, .task]).wroteResults = true
     ∧ (runGen genWorld0 [.task, .task]).checkedStep = some "generating_copy")
    ∧ ((⟨"welcome", 1, false, none⟩ : GenWorld).step ≠ "generating_copy"
       ∧ (runGen (genTaskStep ⟨"welcome", 1, false, none⟩) [.task]).wroteResults = false) :=
  ⟨⟨by decide,
    (background_write_only_when_generating [.task, .task] genWorld0).2.2.1 (by decide)⟩,
   ⟨by decide,
    (background_write_only_when_generating [.task] ⟨"welcome", 1, false, none⟩).2.2.2
      rfl (by decide)⟩⟩

/-! ## Character and cleaning lemmas for phone validation -/

theorem dropWhile_eq_self_of_head (p : Char → Bool) (l : List Char)
    (h : ∀ c ∈ l, p c = false) : l.dropWhile p = l := by
  cases l with
  | nil => rfl
  | cons a t => simp [List.dropWhile_cons, h a (List.mem_cons_self a t)]

theorem pyStripChars_eq_self (l : List Char) (h : ∀ c ∈ l, c.isWhitespace = false) :
    pyStripChars l = l := by
  unfold pyStripChars
  rw [dropWhile_eq_self_of_head _ _ h,
    dropWhile_eq_self_of_head _ _ (fun c hc => h c (List.mem_reverse.mp hc)),
    List.reverse_reverse]

theorem digit_char_facts : ∀ c ∈ digits09, c.isWhitespace = false
    ∧ c ∉ clean_separators
    ∧ c ∉ (['+', '-', ' '] : List Char) := by decide

theorem area_code_facts : ∀ a ∈ mobile_area_codes,
    a.data.length = 2 ∧ (∀ c ∈ a.data, c ∈ digits09) ∧ a.data.head? ≠ some '0' := by decide

/-- Claim C8: a raw Brazilian legacy mobile number missing the ninth digit —
an area code of the mobile set followed by 8 digits with a legacy mobile
leading digit (6, 7 or 8) — validates after the missing `9` is inserted before
validation, and the resulting E.164 `formatted` value contains the inserted
digit; both for the bare local form (repaired during cleaning) and for the
country-code form (repaired by the legacy-mobile fix). -/
theorem legacy_ninth_digit_inserted (area : String) (n1 : Char) (ns : List Char)
    (harea : area ∈ mobile_area_codes)
    (hn1 : n1 ∈ (['6', '7', '8'] : List Char))
    (hdig : ∀ c ∈ n1 :: ns, c ∈ digits09)
    (hlen : ns.length = 7) :
    ((validate_phone_number (area ++ ⟨n1 :: ns⟩)).is_valid = true
     ∧ (validate_phone_number (area ++ ⟨n1 :: ns⟩)).formatted
        = "+55" ++ area ++ "9" ++ ⟨n1 :: ns⟩)
    ∧ ((validate_phone_number ("55" ++ area ++ ⟨n1 :: ns⟩)).is_valid = true
     ∧ (validate_phone_number ("55" ++ area ++ ⟨n1 :: ns⟩)).formatted
        = "+55" ++ area ++ "9" ++ ⟨n1 :: ns⟩) := by
  obtain ⟨hal, hadig, hahead⟩ := area_code_facts area harea
  obtain ⟨a1, a2, ha⟩ := List.length_eq_two.mp hal
  obtain ⟨d⟩ := area
  simp only at ha
  subst ha
  have ha1 : a1 ∈ digits09 := hadig a1 (by simp)
  have ha2 : a2 ∈ digits09 := hadig a2 (by simp)
  have ha10 : a1 ≠ '0' := by
    intro h
    exact hahead (by simp [h])
  have hLdig : ∀ c ∈ a1 :: a2 :: n1 :: ns, c ∈ digits09 := by
    intro c hc
    rcases List.mem_cons.mp hc with h | hc
    · exact h ▸ ha1
    rcases List.mem_cons.mp hc with h | hc
    · exact h ▸ ha2
    exact hdig c hc
  have hws : ∀ c ∈ a1 :: a2 :: n1 :: ns, c.isWhitespace = false :=
    fun c hc => (digit_char_facts c (hLdig c hc)).1
  have hsep : (a1 :: a2 :: n1 :: ns).filter (fun c => !clean_separators.contains c)
      = a1 :: a2 :: n1 :: ns :=
    List.filter_eq_self.mpr
      (fun c hc => by simpa using (digit_char_facts c (hLdig c hc)).2.1)
  have hpm : (a1 :: a2 :: n1 :: ns).filter (fun c => !(['+', '-', ' '].contains c))
      = a1 :: a2 :: n1 :: ns :=
    List.filter_eq_self.mpr
      (fun c hc => by simpa using (digit_char_facts c (hLdig c hc)).2.2)
  have ha01 : ('0' : Char) ≠ a1 := Ne.symm ha10
  have hn5 : ¬(n1 ≤ '5') := by fin_cases hn1 <;> decide
  have hn9 : ('9' : Char) ≠ n1 := by fin_cases hn1 <;> decide
  have hvalid9 : phonenumbers_is_valid_br ⟨ '+' :: '5' :: '5' :: a1 :: a2 :: '9' :: n1 :: ns⟩
      = true := by
    simp only [phonenumbers_is_valid_br]
    simp [hlen, listStartsWith, harea]
    exact ⟨by decide, hdig n1 (List.mem_cons_self _ _),
      fun x hx => hdig x (List.mem_cons_of_mem _ hx)⟩
  have hclean1 : clean_phone_number (⟨[a1, a2]⟩ ++ (⟨n1 :: ns⟩ : String))
      = ⟨ '+' :: '5' :: '5' :: a1 :: a2 :: '9' :: n1 :: ns⟩ := by
    show clean_phone_number ⟨a1 :: a2 :: n1 :: ns⟩ = _
    simp only [clean_phone_number, pyStripChars_eq_self _ hws, hsep]
    split_ifs <;> first | rfl | (exfalso; simp_all [listStartsWith])
  have hclean2 : clean_phone_number ("55" ++ ⟨[a1, a2]⟩ ++ (⟨n1 :: ns⟩ : String))
      = ⟨ '+' :: '5' :: '5' :: a1 :: a2 :: n1 :: ns⟩ := by
    show clean_phone_number ⟨ '5' :: '5' :: a1 :: a2 :: n1 :: ns⟩ = _
    have hws2 : ∀ c ∈ '5' :: '5' :: a1 :: a2 :: n1 :: ns, c.isWhitespace = false := by
      intro c hc
      rcases List.mem_cons.mp hc with h | hc
      · subst h
        decide
      rcases List.mem_cons.mp hc with h | hc
      · subst h
        decide
      exact hws c hc
    have hsep2 : ('5' :: '5' :: a1 :: a2 :: n1 :: ns).filter
        (fun c => !clean_separators.contains c) = '5' :: '5' :: a1 :: a2 :: n1 :: ns := by
      rw [List.filter_cons_of_pos (by decide), List.filter_cons_of_pos (by decide), hsep]
    simp only [clean_phone_number, pyStripChars_eq_self _ hws2, hsep2]
    split_ifs <;> first | rfl | (exfalso; simp_all [listStartsWith])
  have hvfalse : phonenumbers_is_valid_br ⟨ '+' :: '5' :: '5' :: a1 :: a2 :: n1 :: ns⟩
      = false := by
    simp only [phonenumbers_is_valid_br]
    simp [hlen, decide_eq_false hn5]
  have hfix : fix_brazilian_legacy_mobile ⟨ '+' :: '5' :: '5' :: a1 :: a2 :: n1 :: ns⟩
      = ⟨ '+' :: '5' :: '5' :: a1 :: a2 :: '9' :: n1 :: ns⟩ := by
    have hpm2 : ('+' :: '5' :: '5' :: a1 :: a2 :: n1 :: ns).filter
        (fun c => !(['+', '-', ' '].contains c)) = '5' :: '5' :: a1 :: a2 :: n1 :: ns := by
      rw [List.filter_cons_of_neg (by decide), List.filter_cons_of_pos (by decide),
        List.filter_cons_of_pos (by decide), hpm]
    simp only [fix_brazilian_legacy_mobile, hpm2]
    split_ifs <;> first | rfl | (exfalso; simp_all [listStartsWith, harea])
  have hne : (⟨ '+' :: '5' :: '5' :: a1 :: a2 :: '9' :: n1 :: ns⟩ : String)
      ≠ ⟨ '+' :: '5' :: '5' :: a1 :: a2 :: n1 :: ns⟩ := by
    intro h
    have hlen' := congrArg (fun s : String => s.data.length) h
    simp at hlen'
  refine ⟨⟨?_, ?_⟩, ⟨?_, ?_⟩⟩
  · simp only [validate_phone_number]
    rw [hclean1, if_pos hvalid9]
    rfl
  · simp only [validate_phone_number]
    rw [hclean1, if_pos hvalid9]
    rfl
  · simp only [validate_phone_number]
    rw [hclean2, if_neg (by simp [hvfalse]), hfix, if_pos hne, if_pos hvalid9]
    rfl
  · simp only [validate_phone_number]
    rw [hclean2, if_neg (by simp [hvfalse]), hfix, if_pos hne, if_pos hvalid9]
    rfl

/-- Witness for C8 at the concrete legacy number `11 8765-4321` (area code 11,
8-digit local number): the inserted digit yields `+5511987654321`. -/
theorem legacy_ninth_digit_inserted_witness :
    (("11" : String) ∈ mobile_area_codes
     ∧ (validate_phone_number ("11" ++ ⟨ '8' :: "7654321".data⟩)).is_valid = true
     ∧ (validate_phone_number ("11" ++ ⟨ '8' :: "7654321".data⟩)).formatted
        = "+55" ++ "11" ++ "9" ++ ⟨ '8' :: "7654321".data⟩)
    ∧ ((validate_phone_number ("55" ++ "11" ++ ⟨ '8' :: "7654321".data⟩)).is_valid = true
     ∧ (validate_phone_number ("55" ++ "11" ++ ⟨ '8' :: "7654321".data⟩)).formatted
        = "+55" ++ "11" ++ "9" ++ ⟨ '8' :: "7654321".data⟩) :=
  ⟨⟨by decide,
    (legacy_ninth_digit_inserted "11" '8' "7654321".data (by decide) (by decide)
      (by decide) (by decide)).1⟩,
   (legacy_ninth_digit_inserted "11" '8' "7654321".data (by decide) (by decide)
      (by decide) (by decide)).2⟩

end DisparaAI
